import Mathlib

/-!
Verification development for the workflow orchestration engine of the
Supertrack backend (`backend/shared/agent/orchestrator_agent.py` plus the
HTTP-side parser in `backend/functions/agents/orchestrator/__init__.py`).

The Python data model (`Task`, `Workflow`) is embedded as Lean structures;
wall-clock values produced by `time.time()` are modelled by an abstract
monotone logical clock (`Nat`), and dictionaries with a fixed key set are
modelled as records.  The `WorkflowEngine` scheduling loop — a cooperative
async loop that dispatches ready tasks as concurrent coroutines — is
embedded as a small-step transition relation `LoopStep` whose atomic blocks
are the code regions between coroutine suspension points.  The initial
synchronous block of `_execute_task` (the `is_running` guard, the
`IN_PROGRESS` transition and the `start_time` stamp) is modelled as running
at dispatch time; the executor outcome (success or exception) is applied at
a later, nondeterministically scheduled step.  Callback invocation points
(`task_complete`, `task_failed`, `workflow_complete`, `workflow_failed`)
are recorded in an event trace; the callbacks themselves are external
observers that do not mutate engine state.
-/

namespace Orch

/-- `AgentType` enum from `base_agent.py`. -/
inductive AgentType where
  | query
  | orchestrator
  | metadata_extraction
  | connector
  | investigation
  | custom
deriving DecidableEq, Repr

/-- The string value of each `AgentType` member. -/
def AgentType.value : AgentType → String
  | .query => "query"
  | .orchestrator => "orchestrator"
  | .metadata_extraction => "metadata_extraction"
  | .connector => "connector"
  | .investigation => "investigation"
  | .custom => "custom"

/-- `AgentType(s)` applied to a plain string: `some` member on a valid
value, `none` models the `ValueError` raised on an unknown value. -/
def AgentType.ofString (s : String) : Option AgentType :=
  if s = "query" then some .query
  else if s = "orchestrator" then some .orchestrator
  else if s = "metadata_extraction" then some .metadata_extraction
  else if s = "connector" then some .connector
  else if s = "investigation" then some .investigation
  else if s = "custom" then some .custom
  else none

/-- `TaskStatus` enum. -/
inductive TaskStatus where
  | pending
  | in_progress
  | completed
  | failed
  | cancelled
deriving DecidableEq, Repr

/-- `WorkflowStatus` enum. -/
inductive WorkflowStatus where
  | pending
  | in_progress
  | completed
  | failed
  | cancelled
  | paused
deriving DecidableEq, Repr

/-- The `{"content": ..., "metadata": ...}` dictionary stored into
`task.result` by `WorkflowEngine._execute_task`. -/
structure TaskResult where
  content : String
  metadata : List (String × String)
deriving DecidableEq, Repr

/-- The `Task` class: definition fields plus the mutable runtime
attributes set in `Task.__init__`. -/
structure Task where
  id : String
  agent_type : AgentType
  name : String
  description : String
  params : List (String × String)
  dependencies : List String
  timeout : Option Nat
  retry_limit : Nat
  status : TaskStatus
  start_time : Option Nat
  end_time : Option Nat
  result : Option TaskResult
  error : Option String
  retry_count : Nat
  session_id : Option String
deriving DecidableEq, Repr

/-- `Task.__init__`: optional arguments defaulted with Python truthiness
(`name or id`, `description or ""`, `params or {}`, `dependencies or []`)
and the runtime attributes initialised to `PENDING` / `None` / `0`. -/
def Task.init (id : String) (agent_type : AgentType) (name : Option String)
    (description : Option String) (params : Option (List (String × String)))
    (dependencies : Option (List String)) (timeout : Option Nat)
    (retry_limit : Nat) : Task :=
  { id := id
    agent_type := agent_type
    name := match name with
      | some n => if n = "" then id else n
      | none => id
    description := description.getD ""
    params := params.getD []
    dependencies := dependencies.getD []
    timeout := timeout
    retry_limit := retry_limit
    status := .pending
    start_time := none
    end_time := none
    result := none
    error := none
    retry_count := 0
    session_id := none }

/-- The dictionary produced by `Task.to_dict`: a fixed key set, so it is
modelled as a record with one field per key. -/
structure TaskDict where
  id : String
  agent_type : AgentType
  name : String
  description : String
  params : List (String × String)
  dependencies : List String
  timeout : Option Nat
  retry_limit : Nat
  status : TaskStatus
  start_time : Option Nat
  end_time : Option Nat
  result : Option TaskResult
  error : Option String
  retry_count : Nat
  session_id : Option String
deriving DecidableEq, Repr

/-- `Task.to_dict`. -/
def Task.to_dict (t : Task) : TaskDict :=
  { id := t.id
    agent_type := t.agent_type
    name := t.name
    description := t.description
    params := t.params
    dependencies := t.dependencies
    timeout := t.timeout
    retry_limit := t.retry_limit
    status := t.status
    start_time := t.start_time
    end_time := t.end_time
    result := t.result
    error := t.error
    retry_count := t.retry_count
    session_id := t.session_id }

/-- `Task.from_dict`: calls the constructor with the definition fields and
then overwrites the runtime attributes from the dictionary.  `AgentType(
data["agent_type"])` and `TaskStatus(data.get("status", PENDING))` applied
to values that are already enum members return the member itself. -/
def Task.from_dict (d : TaskDict) : Task :=
  let t := Task.init d.id d.agent_type (some d.name) (some d.description)
    (some d.params) (some d.dependencies) d.timeout d.retry_limit
  { t with
    status := d.status
    start_time := d.start_time
    end_time := d.end_time
    result := d.result
    error := d.error
    retry_count := d.retry_count
    session_id := d.session_id }

/-- The `Workflow` class: definition fields plus runtime attributes. -/
structure Workflow where
  id : String
  name : String
  description : String
  tasks : List Task
  metadata : List (String × String)
  status : WorkflowStatus
  start_time : Option Nat
  end_time : Option Nat
  error : Option String
  current_task_id : Option String
deriving DecidableEq, Repr

/-- `Workflow.__init__`. -/
def Workflow.init (id : String) (name : String) (description : Option String)
    (tasks : Option (List Task)) (metadata : Option (List (String × String))) :
    Workflow :=
  { id := id
    name := name
    description := description.getD ""
    tasks := tasks.getD []
    metadata := metadata.getD []
    status := .pending
    start_time := none
    end_time := none
    error := none
    current_task_id := none }

/-- The dictionary produced by `Workflow.to_dict`. -/
structure WorkflowDict where
  id : String
  name : String
  description : String
  tasks : List TaskDict
  metadata : List (String × String)
  status : WorkflowStatus
  start_time : Option Nat
  end_time : Option Nat
  error : Option String
  current_task_id : Option String
deriving DecidableEq, Repr

/-- `Workflow.to_dict`. -/
def Workflow.to_dict (w : Workflow) : WorkflowDict :=
  { id := w.id
    name := w.name
    description := w.description
    tasks := w.tasks.map Task.to_dict
    metadata := w.metadata
    status := w.status
    start_time := w.start_time
    end_time := w.end_time
    error := w.error
    current_task_id := w.current_task_id }

/-- `Workflow.from_dict`. -/
def Workflow.from_dict (d : WorkflowDict) : Workflow :=
  let w := Workflow.init d.id d.name (some d.description)
    (some (d.tasks.map Task.from_dict)) (some d.metadata)
  { w with
    status := d.status
    start_time := d.start_time
    end_time := d.end_time
    error := d.error
    current_task_id := d.current_task_id }

/-- `Workflow.get_task`: first task in list order with the given id,
`None` if absent. -/
def Workflow.get_task (w : Workflow) (task_id : String) : Option Task :=
  w.tasks.find? (fun t => t.id == task_id)

/-- The dependency check inside `Workflow.get_next_tasks`: every
dependency id resolves via `get_task` to a task whose status is
`COMPLETED` (a dangling id makes the conjunction false). -/
def Workflow.depsCompleted (w : Workflow) (t : Task) : Bool :=
  t.dependencies.all (fun dep_id =>
    match w.get_task dep_id with
    | some dep_task => dep_task.status == .completed
    | none => false)

/-- The per-task readiness predicate of `Workflow.get_next_tasks`. -/
def Workflow.readyTask (w : Workflow) (t : Task) : Bool :=
  t.status == .pending && w.depsCompleted t

/-- `Workflow.get_next_tasks`: the `PENDING` tasks whose dependencies are
all resolved and `COMPLETED`, in list order. -/
def Workflow.get_next_tasks (w : Workflow) : List Task :=
  w.tasks.filter (fun t => w.readyTask t)

/-- `Workflow.is_complete`: every task is in a terminal status. -/
def Workflow.is_complete (w : Workflow) : Bool :=
  w.tasks.all (fun t =>
    t.status == .completed || t.status == .failed || t.status == .cancelled)

/-- `Workflow.has_failed_tasks`. -/
def Workflow.has_failed_tasks (w : Workflow) : Bool :=
  w.tasks.any (fun t => t.status == .failed)

/-- Callback invocation points of the engine, recorded as a trace.  An
event is emitted exactly where the Python code would invoke the
corresponding optional callback. -/
inductive EngineEvent where
  | task_complete (task_id : String)
  | task_failed (task_id : String)
  | workflow_complete
  | workflow_failed
deriving DecidableEq, Repr

/-- Position of the `execute()` coroutine: at the head of the scheduling
loop, or returned. -/
inductive LoopPhase where
  | atHead
  | finished
deriving DecidableEq, Repr

/-- `set.add` on the engine's `active_tasks` set of task ids, modelled as
a duplicate-free list. -/
def setAdd (l : List String) (x : String) : List String :=
  if x ∈ l then l else l ++ [x]

/-- `set.discard`. -/
def setDiscard (l : List String) (x : String) : List String :=
  l.filter (fun y => y ≠ x)

/-- State of one `WorkflowEngine.execute()` run: the bound workflow, the
`active_tasks` id set, the `is_running` flag, the indices (positions in
`workflow.tasks`) of dispatched task executions whose outcome is still
outstanding, the loop position, the emitted callback trace, and the
logical clock standing in for `time.time()`. -/
structure EngState where
  workflow : Workflow
  active : List String
  running : Bool
  execs : List Nat
  loop : LoopPhase
  events : List EngineEvent
  clock : Nat
deriving DecidableEq, Repr

/-- The initial synchronous block of `_execute_task` once the
`is_running` guard has passed: `task.status = IN_PROGRESS`,
`task.start_time = time.time()`. -/
def taskStartBlock (clock : Nat) (t : Task) : Task :=
  { t with status := .in_progress, start_time := some clock }

/-- `_execute_task` lines 416-420: if the engine is no longer running the
coroutine returns immediately, leaving the task untouched; otherwise it
runs the initial block. -/
def execTaskGuard (running : Bool) (clock : Nat) (t : Task) : Task :=
  if running then taskStartBlock clock t else t

/-- Success path of `_execute_task` after the gateway call returns:
`session_id` is recorded, the result `{content, metadata}` stored, the
status set to `COMPLETED`, and the `finally` block stamps `end_time`. -/
def taskSuccessBlock (sid content : String) (meta : List (String × String))
    (clock : Nat) (t : Task) : Task :=
  { t with
    session_id := some sid
    result := some { content := content, metadata := meta }
    status := .completed
    end_time := some clock }

/-- Exception path of `_execute_task`: increment `retry_count`; if still
below `retry_limit`, back to `PENDING` with a retrying error, else
`FAILED` with the terminal error; the `finally` block stamps
`end_time`. -/
def taskFailureBlock (msg : String) (clock : Nat) (t : Task) : Task :=
  if t.retry_count + 1 < t.retry_limit then
    { t with
      retry_count := t.retry_count + 1
      status := .pending
      error := some ("Error executing task: " ++ msg ++ ". Retrying...")
      end_time := some clock }
  else
    { t with
      retry_count := t.retry_count + 1
      status := .failed
      error := some ("Error executing task: " ++ msg)
      end_time := some clock }

/-- The `task_failed` callback fires only on the terminal branch of the
exception path. -/
def taskFailureEmits (t : Task) : Bool :=
  ! (t.retry_count + 1 < t.retry_limit)

/-- One iteration of the dispatch branch: every ready task is spawned
(`asyncio.create_task(self._execute_task(task))`) and its id added to
`active_tasks`; the spawned execution's initial block is modelled as
running at dispatch, and its index becomes an outstanding execution. -/
def dispatchResult (s : EngState) : EngState :=
  let w := s.workflow
  { s with
    workflow := { w with
      tasks := w.tasks.map (fun t =>
        if w.readyTask t then taskStartBlock s.clock t else t) }
    active := (w.get_next_tasks.map (fun t => t.id)).foldl setAdd s.active
    execs := s.execs ++
      (List.range w.tasks.length).filter (fun i =>
        match w.tasks[i]? with
        | some t => w.readyTask t
        | none => false)
    clock := s.clock + 1 }

/-- The error string of the stuck-workflow branch. -/
def stuckMsg : String := "Workflow is stuck with no runnable tasks"

/-- The error string of the failed-tasks completion branch. -/
def tasksFailedMsg : String := "One or more tasks failed"

/-- The code after the scheduling loop: if the workflow is complete,
derive `FAILED` (with the generic error and the `workflow_failed`
callback) or `COMPLETED` (with `workflow_complete`) from
`has_failed_tasks`; unconditionally stamp `end_time` and return, the
`finally` block clearing `is_running`. -/
def finalizeResult (s : EngState) : EngState :=
  let w := s.workflow
  let wev : Workflow × List EngineEvent :=
    if w.is_complete then
      if w.has_failed_tasks then
        ({ w with status := .failed, error := some tasksFailedMsg },
         [EngineEvent.workflow_failed])
      else
        ({ w with status := .completed }, [EngineEvent.workflow_complete])
    else (w, [])
  { s with
    workflow := { wev.1 with end_time := some s.clock }
    events := s.events ++ wev.2
    running := false
    loop := .finished
    clock := s.clock + 1 }

/-- The stuck branch: mark the workflow `FAILED` with the stuck error and
`break`, after which the post-loop code runs (the workflow is not
complete, so the completion branch is skipped). -/
def stuckResult (s : EngState) : EngState :=
  finalizeResult
    { s with workflow :=
      { s.workflow with status := .failed, error := some stuckMsg } }

/-- Outcome application for a dispatched execution at index `i` that
succeeded: update the task, pop the execution, discard the id from
`active_tasks`, and emit `task_complete`. -/
def finishSuccessResult (s : EngState) (i : Nat) (sid content : String)
    (meta : List (String × String)) : EngState :=
  match s.workflow.tasks[i]? with
  | none => s
  | some t =>
    { s with
      workflow := { s.workflow with
        tasks := s.workflow.tasks.set i (taskSuccessBlock sid content meta s.clock t) }
      active := setDiscard s.active t.id
      execs := s.execs.erase i
      events := s.events ++ [EngineEvent.task_complete t.id]
      clock := s.clock + 1 }

/-- Outcome application for a dispatched execution at index `i` whose
gateway call raised: run the exception path, pop the execution, discard
the id, and emit `task_failed` exactly on the terminal branch. -/
def finishFailureResult (s : EngState) (i : Nat) (msg : String) : EngState :=
  match s.workflow.tasks[i]? with
  | none => s
  | some t =>
    { s with
      workflow := { s.workflow with
        tasks := s.workflow.tasks.set i (taskFailureBlock msg s.clock t) }
      active := setDiscard s.active t.id
      execs := s.execs.erase i
      events := s.events ++
        (if taskFailureEmits t then [EngineEvent.task_failed t.id] else [])
      clock := s.clock + 1 }

/-- Small-step semantics of `WorkflowEngine.execute()`'s scheduling loop
and of the dispatched `_execute_task` executions, one constructor per
atomic block between suspension points:
* `exit`  — the `while` condition fails (`stop()` was called or the
  workflow is complete) and the post-loop code runs;
* `stuck` — no ready tasks and no active tasks: the deadlock rule;
* `idle`  — no ready tasks but active ones: `await asyncio.sleep(0.1)`;
* `dispatch` — a nonempty ready set is dispatched;
* `finishSuccess` / `finishFailure` — an outstanding execution's gateway
  call returns or raises (these may also run after the loop has exited:
  in-flight executions are not forcibly killed). -/
inductive LoopStep : EngState → EngState → Prop where
  | exit (s : EngState) :
      s.loop = .atHead →
      (s.running = false ∨ s.workflow.is_complete = true) →
      LoopStep s (finalizeResult s)
  | stuck (s : EngState) :
      s.loop = .atHead → s.running = true →
      s.workflow.is_complete = false →
      s.workflow.get_next_tasks = [] → s.active = [] →
      LoopStep s (stuckResult s)
  | idle (s : EngState) :
      s.loop = .atHead → s.running = true →
      s.workflow.is_complete = false →
      s.workflow.get_next_tasks = [] → s.active ≠ [] →
      LoopStep s { s with clock := s.clock + 1 }
  | dispatch (s : EngState) :
      s.loop = .atHead → s.running = true →
      s.workflow.is_complete = false →
      s.workflow.get_next_tasks ≠ [] →
      LoopStep s (dispatchResult s)
  | finishSuccess (s : EngState) (i : Nat) (sid content : String)
      (meta : List (String × String)) :
      i ∈ s.execs →
      LoopStep s (finishSuccessResult s i sid content meta)
  | finishFailure (s : EngState) (i : Nat) (msg : String) :
      i ∈ s.execs →
      LoopStep s (finishFailureResult s i msg)

/-- `WorkflowEngine.stop()`: clear `is_running` and set the workflow
status to `CANCELLED`.  Nothing else is touched. -/
def stopEngine (s : EngState) : EngState :=
  { s with running := false
           workflow := { s.workflow with status := .cancelled } }

/-- The `workflow` slot of a `WorkflowEngine` before `execute()` is
entered (`None` until `set_workflow` is called). -/
structure EngineSlot where
  workflow : Option Workflow
deriving DecidableEq, Repr

/-- The entry of `execute()`: raise `ValueError("No workflow set")` when
no workflow is bound; otherwise mark the workflow `IN_PROGRESS`, stamp
`start_time`, set `is_running` and enter the loop. -/
def executeEntry (e : EngineSlot) (clock : Nat) : Except String EngState :=
  match e.workflow with
  | none => .error "No workflow set"
  | some w =>
    .ok { workflow := { w with status := .in_progress, start_time := some clock }
          active := []
          running := true
          execs := []
          loop := .atHead
          events := []
          clock := clock + 1 }

/-- The top-level `except Exception` handler of `execute()`: any internal
error is recorded into `workflow.error`, the workflow is forced to
`FAILED`, `end_time` is stamped, the `workflow_failed` callback is
invoked, and `execute()` returns the workflow normally (the `finally`
block clears `is_running`). -/
def engineFaultHandler (msg : String) (s : EngState) : EngState :=
  { s with
    workflow := { s.workflow with
      status := .failed
      error := some msg
      end_time := some s.clock }
    events := s.events ++ [EngineEvent.workflow_failed]
    running := false
    loop := .finished
    clock := s.clock + 1 }

/-- A task entry of a workflow definition document: `Option` encodes key
presence in the request dictionary. -/
structure TaskDef where
  id : Option String
  agent_type : Option String
  name : Option String
  description : Option String
  params : Option (List (String × String))
  dependencies : Option (List String)
  timeout : Option Nat
  retry_limit : Option Nat
deriving DecidableEq, Repr

/-- A workflow definition document (input of workflow creation). -/
structure WorkflowDef where
  id : Option String
  name : Option String
  description : Option String
  metadata : Option (List (String × String))
  tasks : Option (List TaskDef)
deriving DecidableEq, Repr

/-- Python truthiness of `data.get(key)` for a string-valued key: false
when the key is absent or the value is the empty string. -/
def truthyStr : Option String → Bool
  | some s => s != ""
  | none => false

/-- The task loop of `OrchestratorAgent._create_workflow`: each task id
defaults to a generated uuid (`gen` is the uuid supply; the workflow id
uses `gen 0`, the task at position `i` uses `gen (i+1)`), while
`AgentType(task_data["agent_type"])` raises on a missing key or an
unknown value.  The error value carries the number of `Task` objects
already constructed when the exception was raised. -/
def buildTasksCreate (gen : Nat → String) :
    List TaskDef → Nat → Except (String × Nat) (List Task)
  | [], _ => .ok []
  | td :: rest, i =>
    match td.agent_type with
    | none => .error ("'agent_type'", i)
    | some s =>
      match AgentType.ofString s with
      | none => .error (s ++ " is not a valid AgentType", i)
      | some a =>
        let task := Task.init (td.id.getD (gen (i + 1))) a td.name
          td.description td.params td.dependencies td.timeout
          (td.retry_limit.getD 3)
        match buildTasksCreate gen rest (i + 1) with
        | .error e => .error e
        | .ok ts => .ok (task :: ts)

/-- The `try` block of `OrchestratorAgent._create_workflow`: a missing
workflow id is replaced by a generated uuid, tasks are built (possibly
raising), and only then is `workflow_data["name"]` read — raising
`KeyError('name')` after every task object has been built. -/
def createWorkflow (gen : Nat → String) (d : WorkflowDef) :
    Except (String × Nat) Workflow :=
  let wid := match d.id with
    | some s => s
    | none => gen 0
  match buildTasksCreate gen (d.tasks.getD []) 0 with
  | .error e => .error e
  | .ok ts =>
    match d.name with
    | none => .error ("'name'", ts.length)
    | some nm => .ok (Workflow.init wid nm d.description (some ts) d.metadata)

/-- `self.workflows[workflow.id] = workflow`, on the association-list
model of the `workflows` dictionary (most recent binding first). -/
def storeWorkflow (ws : List (String × Workflow)) (w : Workflow) :
    List (String × Workflow) :=
  (w.id, w) :: ws

/-- `_create_workflow` including its effect on the stored-template map:
on any exception the handler returns an error response and the map is
left unchanged. -/
def createWorkflowStore (gen : Nat → String) (d : WorkflowDef)
    (ws : List (String × Workflow)) : List (String × Workflow) :=
  match createWorkflow gen d with
  | .error _ => ws
  | .ok w => storeWorkflow ws w

/-- The task loop of `parse_workflow_definition` (the Azure Function
endpoint module): each task must carry a truthy id and agent_type before
the `Task` object is built. -/
def buildTasksParse : List TaskDef → Nat → Except (String × Nat) (List Task)
  | [], _ => .ok []
  | td :: rest, i =>
    if truthyStr td.id then
      if truthyStr td.agent_type then
        match AgentType.ofString (td.agent_type.getD "") with
        | none => .error (td.agent_type.getD "" ++ " is not a valid AgentType", i)
        | some a =>
          let task := Task.init (td.id.getD "") a td.name td.description
            td.params td.dependencies td.timeout (td.retry_limit.getD 3)
          match buildTasksParse rest (i + 1) with
          | .error e => .error e
          | .ok ts => .ok (task :: ts)
      else .error ("Task agent_type is required", i)
    else .error ("Task ID is required", i)

/-- `parse_workflow_definition`: validates the workflow id and name
(truthiness of `workflow_data.get(...)`), then parses the tasks, then
constructs the `Workflow`. -/
def parseWorkflowDefinition (d : WorkflowDef) : Except (String × Nat) Workflow :=
  if truthyStr d.id then
    if truthyStr d.name then
      match buildTasksParse (d.tasks.getD []) 0 with
      | .error e => .error e
      | .ok ts =>
        .ok (Workflow.init (d.id.getD "") (d.name.getD "") d.description
          (some ts) d.metadata)
    else .error ("Workflow name is required", 0)
  else .error ("Workflow ID is required", 0)

/-- An object heap for the aliasing semantics of
`OrchestratorAgent._execute_workflow`: `Task` objects live at numeric
references, `copy.deepcopy` allocates fresh references. -/
structure Heap where
  entries : List (Nat × Task)
  next : Nat
deriving DecidableEq, Repr

/-- Dereference. -/
def Heap.get (h : Heap) (r : Nat) : Option Task :=
  (h.entries.find? (fun p => p.1 == r)).map (fun p => p.2)

/-- In-place mutation of the object at reference `r`. -/
def Heap.set (h : Heap) (r : Nat) (t : Task) : Heap :=
  { h with entries := h.entries.map (fun p => if p.1 == r then (r, t) else p) }

/-- Allocation of a fresh object. -/
def Heap.alloc (h : Heap) (t : Task) : Heap × Nat :=
  ({ entries := h.entries ++ [(h.next, t)], next := h.next + 1 }, h.next)

/-- Allocation discipline: every live reference is below the allocation
counter. -/
def Heap.wfh (h : Heap) : Prop := ∀ p ∈ h.entries, p.1 < h.next

/-- A `Workflow` object whose `tasks` list holds references into the
heap (the aliasing-relevant part of the Python object graph). -/
structure WorkflowObj where
  id : String
  name : String
  taskRefs : List Nat
  status : WorkflowStatus
deriving DecidableEq, Repr

/-- `copy.deepcopy` of the task list: each reachable `Task` object is
copied into a freshly allocated object. -/
def copyTasks : Heap → List Nat → Heap × List Nat
  | h, [] => (h, [])
  | h, r :: rs =>
    match h.get r with
    | some t =>
      let hr := h.alloc t
      let rest := copyTasks hr.1 rs
      (rest.1, hr.2 :: rest.2)
    | none => copyTasks h rs

/-- `copy.deepcopy(workflow)`: a new `Workflow` object whose task
references are the fresh copies. -/
def deepcopyWorkflow (h : Heap) (w : WorkflowObj) : Heap × WorkflowObj :=
  let hr := copyTasks h w.taskRefs
  (hr.1, { w with taskRefs := hr.2 })

/-- The orchestrator's stored templates and engine registrations
(`self.workflows`, `self.engines`), plus the heap. -/
structure OrchState where
  workflows : List (String × WorkflowObj)
  engines : List (String × WorkflowObj)
  heap : Heap
deriving DecidableEq, Repr

/-- Dictionary lookup on an association list (most recent binding
first). -/
def lookupStr {α : Type} (l : List (String × α)) (k : String) : Option α :=
  (l.find? (fun p => p.1 == k)).map (fun p => p.2)

/-- `OrchestratorAgent._execute_workflow` (the workflow-resolution and
copying part): not-found error if no template is stored; otherwise
deep-copy the template into an execution instance and register the new
engine's workflow under the workflow id. -/
def executeWorkflowOp (st : OrchState) (wid : String) :
    Except String OrchState :=
  match lookupStr st.workflows wid with
  | none => .error ("Workflow with ID " ++ wid ++ " not found.")
  | some w =>
    let hr := deepcopyWorkflow st.heap w
    .ok { st with heap := hr.1, engines := (wid, hr.2) :: st.engines }

/-- One complete failing execution attempt of a task while the engine is
running: the initial block of `_execute_task` followed by the exception
path (the gateway call raised `msg`). -/
def failedAttempt (msg : String) (clock : Nat) (t : Task) : Task :=
  taskFailureBlock msg clock (taskStartBlock clock t)

/-- `n` consecutive failing execution attempts. -/
def failN (msg : String) (clock : Nat) : Nat → Task → Task
  | 0, t => t
  | n + 1, t => failedAttempt msg clock (failN msg clock n t)

/-- Concrete example: a task whose only dependency id matches no task. -/
def badTask : Task := Task.init "a" .query none none none (some ["missing"]) none 3

/-- Concrete example: a one-task workflow with an unsatisfiable
dependency, as `execute()` sees it after initialisation. -/
def badWorkflow : Workflow :=
  { Workflow.init "w1" "wf" none (some [badTask]) none with
    status := .in_progress, start_time := some 0 }

/-- The engine state at the first loop iteration for `badWorkflow`. -/
def badInit : EngState :=
  { workflow := badWorkflow, active := [], running := true, execs := [],
    loop := .atHead, events := [], clock := 1 }

/-- The unique successor of `badInit`. -/
def badStuck : EngState := stuckResult badInit

/-- Concrete example: a completed task. -/
def exTaskA : Task :=
  { Task.init "a" .query none none none none none 3 with
    status := .completed,
    result := some { content := "done", metadata := [] } }

/-- Concrete example: a pending task depending on `exTaskA`. -/
def exTaskB : Task := Task.init "b" .query none none none (some ["a"]) none 3

/-- Concrete example: two-task workflow mid-run. -/
def exWorkflow : Workflow :=
  { Workflow.init "w2" "wf2" none (some [exTaskA, exTaskB]) none with
    status := .in_progress, start_time := some 0 }

/-- Engine state about to dispatch `exTaskB`. -/
def exDispatchState : EngState :=
  { workflow := exWorkflow, active := [], running := true, execs := [],
    loop := .atHead, events := [], clock := 5 }

/-- Concrete example: a terminally failed task. -/
def exTaskF : Task :=
  { Task.init "f" .query none none none none none 3 with
    status := .failed, error := some "Error executing task: boom",
    retry_count := 3 }

/-- Concrete example: a completed sibling of `exTaskF`. -/
def exTaskC : Task :=
  { Task.init "c" .query none none none none none 3 with
    status := .completed,
    result := some { content := "ok", metadata := [] } }

/-- Concrete example: a complete workflow with one failed and one
completed task. -/
def exCompleteWf : Workflow :=
  { Workflow.init "w3" "wf3" none (some [exTaskF, exTaskC]) none with
    status := .in_progress, start_time := some 0 }

/-- Engine state whose loop is about to observe completion. -/
def exCompleteState : EngState :=
  { workflow := exCompleteWf, active := [], running := true, execs := [],
    loop := .atHead, events := [], clock := 9 }

/-- Engine state after `stop()` was called on `exDispatchState`. -/
def exStopState : EngState := stopEngine exDispatchState

/-- Concrete example: a fresh task with the default retry budget. -/
def exRetryTask : Task := Task.init "r" .query none none none none none 3

/-- Concrete example: a task constructed with `retry_limit=0`. -/
def exZeroLimitTask : Task := Task.init "z" .query none none none none none 0

/-- A deterministic uuid supply for the creation models. -/
def gen0 : Nat → String := fun n => "uuid-" ++ toString n

/-- A fully valid task definition entry. -/
def tdValid : TaskDef :=
  { id := some "t1", agent_type := some "query", name := none,
    description := none, params := none, dependencies := none,
    timeout := none, retry_limit := none }

/-- A workflow definition with no `id` key. -/
def defNoId : WorkflowDef :=
  { id := none, name := some "w", description := none, metadata := none,
    tasks := some [] }

/-- A workflow definition with no `name` key but one valid task. -/
def defNoName : WorkflowDef :=
  { id := some "x", name := none, description := none, metadata := none,
    tasks := some [tdValid] }

/-- Concrete example: a task object living on the heap. -/
def exHeapTask : Task := Task.init "h" .query none none none none none 3

/-- Concrete example heap holding one task object. -/
def exHeap : Heap := { entries := [(0, exHeapTask)], next := 1 }

/-- Concrete example template workflow object referencing it. -/
def exObjWf : WorkflowObj :=
  { id := "w", name := "w", taskRefs := [0], status := .pending }

/-- Concrete orchestrator state with one stored template. -/
def exOrchState : OrchState :=
  { workflows := [("w", exObjWf)], engines := [], heap := exHeap }

theorem depsCompleted_iff (w : Workflow) (t : Task) :
    w.depsCompleted t = true ↔
      ∀ d ∈ t.dependencies,
        ∃ dt, w.get_task d = some dt ∧ dt.status = .completed := by
  unfold Workflow.depsCompleted
  rw [List.all_eq_true]
  constructor
  · intro h d hd
    have hd' := h d hd
    cases hg : w.get_task d with
    | none => rw [hg] at hd'; simp at hd'
    | some dt =>
      rw [hg] at hd'
      simp only [beq_iff_eq] at hd'
      exact ⟨dt, rfl, hd'⟩
  · intro h d hd
    obtain ⟨dt, hg, hs⟩ := h d hd
    rw [hg]
    simp [hs]

theorem mem_get_next_tasks (w : Workflow) (t : Task) :
    t ∈ w.get_next_tasks ↔
      (t ∈ w.tasks ∧ t.status = .pending ∧
        ∀ d ∈ t.dependencies,
          ∃ dt, w.get_task d = some dt ∧ dt.status = .completed) := by
  unfold Workflow.get_next_tasks Workflow.readyTask
  rw [List.mem_filter]
  rw [Bool.and_eq_true, beq_iff_eq, depsCompleted_iff]

/-- C4: `get_next_tasks` returns exactly the `PENDING` tasks whose every
dependency id resolves (via `get_task`) to a `COMPLETED` task; a task
with a dangling dependency id is never in the ready set. -/
theorem C4_ready_set_characterization :
    (∀ (w : Workflow) (t : Task),
      t ∈ w.get_next_tasks ↔
        (t ∈ w.tasks ∧ t.status = .pending ∧
          ∀ d ∈ t.dependencies,
            ∃ dt, w.get_task d = some dt ∧ dt.status = .completed))
    ∧ (∀ (w : Workflow) (t : Task) (d : String),
        d ∈ t.dependencies → w.get_task d = none →
        t ∉ w.get_next_tasks) := by
  constructor
  · exact mem_get_next_tasks
  · intro w t d hd hg hmem
    obtain ⟨-, -, hall⟩ := (mem_get_next_tasks w t).mp hmem
    obtain ⟨dt, hsome, -⟩ := hall d hd
    rw [hg] at hsome
    exact Option.noConfusion hsome

/-- Witness for C4 at a concrete input: `badTask` declares the
dependency `"missing"`, which resolves to no task of `badWorkflow`, so it
is not in the ready set. -/
theorem C4_ready_set_characterization_witness :
    badTask ∉ badWorkflow.get_next_tasks :=
  C4_ready_set_characterization.2 badWorkflow badTask "missing"
    (by decide) (by decide)

theorem task_round_trip (t : Task) (h : t.name = "" → t.id = "") :
    Task.from_dict (Task.to_dict t) = t := by
  cases t with
  | mk id a n d p dep tmo rl st s e r er rc sid =>
    have hname : (if n = "" then id else n) = n := by
      by_cases hn : n = ""
      · have hid : id = "" := h hn
        rw [if_pos hn, hid, hn]
      · exact if_neg hn
    simp only [Task.from_dict, Task.to_dict, Task.init, Option.getD_some]
    rw [hname]

theorem task_list_round_trip (ts : List Task)
    (h : ∀ t ∈ ts, t.name = "" → t.id = "") :
    (ts.map Task.to_dict).map Task.from_dict = ts := by
  induction ts with
  | nil => rfl
  | cons t rest ih =>
    simp only [List.map_cons, List.cons.injEq]
    constructor
    · exact task_round_trip t (h t (List.mem_cons_self t rest))
    · exact ih (fun x hx => h x (List.mem_cons_of_mem t hx))

/-- C10: `Task.from_dict (Task.to_dict t)` reconstructs every field of
`t`, including the runtime fields, and likewise for `Workflow`.  The
hypothesis `t.name = "" → t.id = ""` is the invariant the Python
constructor establishes (`self.name = name or id`), restated in the third
conjunct: every `Task` the program builds satisfies it. -/
theorem C10_serialization_round_trip :
    (∀ t : Task, (t.name = "" → t.id = "") →
        Task.from_dict (Task.to_dict t) = t)
    ∧ (∀ w : Workflow, (∀ t ∈ w.tasks, t.name = "" → t.id = "") →
        Workflow.from_dict (Workflow.to_dict w) = w)
    ∧ (∀ id a name desc params deps timeout rl,
        (Task.init id a name desc params deps timeout rl).name = "" →
        (Task.init id a name desc params deps timeout rl).id = "") := by
  refine ⟨task_round_trip, ?_, ?_⟩
  · intro w h
    cases w with
    | mk id nm d ts md st s e er cur =>
      simp only [Workflow.from_dict, Workflow.to_dict, Workflow.init,
        Option.getD_some]
      rw [List.map_map]
      have := task_list_round_trip ts h
      rw [List.map_map] at this
      rw [this]
  · intro id a name desc params deps timeout rl h
    simp only [Task.init] at h ⊢
    cases name with
    | none => exact h
    | some n =>
      by_cases hn : n = ""
      · simp [hn] at h
        simp_all
      · simp [hn] at h

/-- Witness for C10 at concrete inputs: round trips of `exTaskA` and
`exWorkflow`, whose names are nonempty. -/
theorem C10_serialization_round_trip_witness :
    Task.from_dict (Task.to_dict exTaskA) = exTaskA ∧
    Workflow.from_dict (Workflow.to_dict exWorkflow) = exWorkflow :=
  ⟨C10_serialization_round_trip.1 exTaskA (by decide),
   C10_serialization_round_trip.2.1 exWorkflow (by decide)⟩

theorem failed_not_ready (w : Workflow) (t : Task) (h : t.status = .failed) :
    t ∉ w.get_next_tasks := by
  intro hm
  obtain ⟨-, hp, -⟩ := (mem_get_next_tasks w t).mp hm
  rw [h] at hp
  exact TaskStatus.noConfusion hp

theorem failN_pending (msg : String) (c : Nat) (t : Task)
    (hp : t.status = .pending) (h0 : t.retry_count = 0) :
    ∀ k, k < t.retry_limit →
      (failN msg c k t).retry_count = k ∧
      (failN msg c k t).retry_limit = t.retry_limit ∧
      (failN msg c k t).status = .pending ∧
      (0 < k → (failN msg c k t).error =
        some ("Error executing task: " ++ msg ++ ". Retrying...")) := by
  intro k
  induction k with
  | zero =>
    intro _
    exact ⟨h0, rfl, hp, fun h' => absurd h' (by omega)⟩
  | succ n ih =>
    intro h
    obtain ⟨hrc, hrl, -, -⟩ := ih (by omega)
    have hstep : failN msg c (n + 1) t =
        { failN msg c n t with
          retry_count := n + 1
          status := .pending
          error := some ("Error executing task: " ++ msg ++ ". Retrying...")
          start_time := some c
          end_time := some c } := by
      show failedAttempt msg c (failN msg c n t) = _
      simp only [failedAttempt, taskFailureBlock, taskStartBlock, hrc, hrl]
      rw [if_pos h]
    rw [hstep]
    exact ⟨rfl, hrl, rfl, fun _ => rfl⟩

/-- C5 (amended: `retry_limit ≥ 1`): a task whose every execution attempt
fails reaches `FAILED` after exactly `retry_limit` attempts with
`retry_count = retry_limit` and the terminal error; every earlier attempt
leaves it `PENDING` with the retrying error and does not fire the
`task_failed` callback, which fires exactly on the terminal attempt; and
a `FAILED` task is never again in the ready set, so no further attempt is
dispatched. -/
theorem C5_retry_bound (t : Task) (msg : String) (c L : Nat)
    (hp : t.status = .pending) (h0 : t.retry_count = 0)
    (hL : t.retry_limit = L) (hpos : 0 < L) :
    (∀ k, k < L → (failN msg c k t).status = .pending ∧
      (failN msg c k t).retry_count = k ∧
      (0 < k → (failN msg c k t).error =
        some ("Error executing task: " ++ msg ++ ". Retrying...")))
    ∧ (failN msg c L t).status = .failed
    ∧ (failN msg c L t).retry_count = L
    ∧ (failN msg c L t).error = some ("Error executing task: " ++ msg)
    ∧ (∀ k, k + 1 < L → taskFailureEmits (failN msg c k t) = false)
    ∧ taskFailureEmits (failN msg c (L - 1) t) = true
    ∧ (∀ (w : Workflow) (t' : Task), t'.status = .failed →
        t' ∉ w.get_next_tasks) := by
  subst hL
  have hbelow := failN_pending msg c t hp h0
  have hlast := hbelow (t.retry_limit - 1) (by omega)
  obtain ⟨hrc, hrl, hst, -⟩ := hlast
  have hcond : ¬ ((t.retry_limit - 1) + 1 < t.retry_limit) := by omega
  have hend : failN msg c t.retry_limit t =
      { failN msg c (t.retry_limit - 1) t with
        retry_count := t.retry_limit
        status := .failed
        error := some ("Error executing task: " ++ msg)
        start_time := some c
        end_time := some c } := by
    have heq : t.retry_limit = (t.retry_limit - 1) + 1 := by omega
    rw [heq]
    show failedAttempt msg c (failN msg c (t.retry_limit - 1) t) = _
    simp only [failedAttempt, taskFailureBlock, taskStartBlock, hrc, hrl]
    rw [if_neg hcond]
    have heq' : t.retry_limit - 1 + 1 = t.retry_limit := by omega
    rw [heq', hrl]
  refine ⟨?_, ?_, ?_, ?_, ?_, ?_, failed_not_ready⟩
  · intro k hk
    obtain ⟨h1, -, h3, h4⟩ := hbelow k hk
    exact ⟨h3, h1, h4⟩
  · rw [hend]
  · rw [hend]
  · rw [hend]
  · intro k hk
    obtain ⟨h1, h2, -, -⟩ := hbelow k (by omega)
    simp [taskFailureEmits, h1, h2]
    omega
  · simp [taskFailureEmits, hrc, hrl]
    omega

/-- Counterexample to C5 as stated: a task constructed with
`retry_limit = 0` reaches `FAILED` after a single failing attempt — one
more attempt than its retry limit — with `retry_count = 1 ≠ retry_limit`
at that point. -/
theorem C5_retry_bound_counterexample :
    exZeroLimitTask.retry_limit = 0 ∧
    exZeroLimitTask.status = .pending ∧
    (failN "boom" 1 1 exZeroLimitTask).status = .failed ∧
    (failN "boom" 1 1 exZeroLimitTask).retry_count = 1 := by
  refine ⟨rfl, rfl, ?_, rfl⟩
  rfl

/-- Witness for C5 at a concrete input: the default budget of three
attempts drives a fresh always-failing task to `FAILED` with
`retry_count = 3`. -/
theorem C5_retry_bound_witness :
    (failN "boom" 1 3 exRetryTask).status = .failed ∧
    (failN "boom" 1 3 exRetryTask).retry_count = 3 :=
  ⟨(C5_retry_bound exRetryTask "boom" 1 3 rfl rfl rfl (by decide)).2.1,
   (C5_retry_bound exRetryTask "boom" 1 3 rfl rfl rfl (by decide)).2.2.1⟩

theorem finalize_workflow_tasks (s : EngState) :
    (finalizeResult s).workflow.tasks = s.workflow.tasks := by
  unfold finalizeResult
  by_cases h1 : s.workflow.is_complete
  · by_cases h2 : s.workflow.has_failed_tasks
    · simp [h1, h2]
    · simp [h1, h2]
  · simp [h1]

theorem stuck_workflow_tasks (s : EngState) :
    (stuckResult s).workflow.tasks = s.workflow.tasks := by
  unfold stuckResult
  rw [finalize_workflow_tasks]

theorem status_clash {t t' : Task} (he : t = t')
    (hpend : t.status = .pending) (hprog : t'.status = .in_progress) :
    False := by
  subst he
  rw [hpend] at hprog
  exact TaskStatus.noConfusion hprog

/-- C1: in every step of the scheduling semantics, a task only
transitions from `PENDING` to `IN_PROGRESS` when every one of its
declared dependencies resolves to a `COMPLETED` task at that moment —
i.e. only by being dispatched out of the ready set. -/
theorem C1_dependency_ordering :
    ∀ (s s' : EngState), LoopStep s s' →
    ∀ (i : Nat) (t t' : Task),
      s.workflow.tasks[i]? = some t →
      s'.workflow.tasks[i]? = some t' →
      t.status = .pending → t'.status = .in_progress →
      s.workflow.depsCompleted t = true := by
  intro s s' hstep i t t' ht ht' hpend hprog
  cases hstep with
  | exit h1 h2 =>
    rw [finalize_workflow_tasks, ht] at ht'
    exact ((status_clash (Option.some.inj ht') hpend hprog).elim)
  | stuck h1 h2 h3 h4 h5 =>
    rw [stuck_workflow_tasks, ht] at ht'
    exact ((status_clash (Option.some.inj ht') hpend hprog).elim)
  | idle h1 h2 h3 h4 h5 =>
    rw [ht] at ht'
    exact ((status_clash (Option.some.inj ht') hpend hprog).elim)
  | dispatch h1 h2 h3 h4 =>
    simp only [dispatchResult] at ht'
    rw [List.getElem?_map, ht] at ht'
    simp only [Option.map_some'] at ht'
    have he := Option.some.inj ht'
    by_cases hr : s.workflow.readyTask t
    · exact ((Bool.and_eq_true _ _).mp hr).2
    · rw [if_neg hr] at he
      exact ((status_clash he hpend hprog).elim)
  | finishSuccess j sid content meta hj =>
    simp only [finishSuccessResult] at ht'
    cases hg : s.workflow.tasks[j]? with
    | none =>
      rw [hg] at ht'
      rw [ht] at ht'
      exact ((status_clash (Option.some.inj ht') hpend hprog).elim)
    | some tj =>
      rw [hg] at ht'
      simp only at ht'
      by_cases hij : j = i
      · subst hij
        rw [List.getElem?_set_self', ht] at ht'
        have he := Option.some.inj ht'
        rw [← he] at hprog
        exact (TaskStatus.noConfusion hprog)
      · rw [List.getElem?_set_ne hij, ht] at ht'
        exact ((status_clash (Option.some.inj ht') hpend hprog).elim)
  | finishFailure j msg hj =>
    simp only [finishFailureResult] at ht'
    cases hg : s.workflow.tasks[j]? with
    | none =>
      rw [hg] at ht'
      rw [ht] at ht'
      exact ((status_clash (Option.some.inj ht') hpend hprog).elim)
    | some tj =>
      rw [hg] at ht'
      simp only at ht'
      by_cases hij : j = i
      · subst hij
        rw [List.getElem?_set_self', ht] at ht'
        have he := Option.some.inj ht'
        rw [← he] at hprog
        unfold taskFailureBlock at hprog
        by_cases hc : tj.retry_count + 1 < tj.retry_limit
        · rw [if_pos hc] at hprog
          exact (TaskStatus.noConfusion hprog)
        · rw [if_neg hc] at hprog
          exact (TaskStatus.noConfusion hprog)
      · rw [List.getElem?_set_ne hij, ht] at ht'
        exact ((status_clash (Option.some.inj ht') hpend hprog).elim)

/-- Witness for C1 at a concrete input: dispatching `exTaskB` (pending,
depending on the completed `exTaskA`) shows its dependencies completed at
the transition. -/
theorem C1_dependency_ordering_witness :
    exWorkflow.depsCompleted exTaskB = true :=
  C1_dependency_ordering exDispatchState (dispatchResult exDispatchState)
    (LoopStep.dispatch exDispatchState rfl rfl (by decide) (by decide))
    1 exTaskB (taskStartBlock 5 exTaskB) (by decide) (by decide)
    (by decide) (by decide)

theorem stuckResult_props (s : EngState) (hc : s.workflow.is_complete = false) :
    (stuckResult s).workflow.status = .failed ∧
    (stuckResult s).workflow.error = some stuckMsg ∧
    (stuckResult s).loop = .finished := by
  have hc' : ({ s.workflow with status := WorkflowStatus.failed, error := some stuckMsg } : Workflow).is_complete = false := hc
  unfold stuckResult finalizeResult
  simp [hc']

theorem finalize_error_stuck (s : EngState)
    (h : (finalizeResult s).workflow.error = some stuckMsg) :
    s.workflow.error = some stuckMsg := by
  unfold finalizeResult at h
  by_cases h1 : s.workflow.is_complete
  · by_cases h2 : s.workflow.has_failed_tasks
    · simp [h1, h2] at h
      exact absurd h (by decide)
    · simpa [h1, h2] using h
  · simpa [h1] using h

theorem finishSuccess_workflow_error (s : EngState) (i : Nat)
    (sid content : String) (meta : List (String × String)) :
    (finishSuccessResult s i sid content meta).workflow.error =
      s.workflow.error := by
  unfold finishSuccessResult
  cases hg : s.workflow.tasks[i]? with
  | none => rfl
  | some tj => simp [hg]

theorem finishFailure_workflow_error (s : EngState) (i : Nat) (msg : String) :
    (finishFailureResult s i msg).workflow.error = s.workflow.error := by
  unfold finishFailureResult
  cases hg : s.workflow.tasks[i]? with
  | none => rfl
  | some tj => simp [hg]

/-- C2: (a) whenever the loop is at its head with the engine running, the
workflow incomplete, the ready set empty and no active tasks, the stuck
branch is enabled and marks the workflow `FAILED` with the stuck error and
exits the loop; (b) no step introduces the stuck error under any other
condition; (c) the concrete workflow whose only task depends on a
nonexistent id deterministically terminates as `FAILED` with the stuck
error in one step, after which no step is enabled. -/
theorem C2_stuck_detection :
    (∀ s : EngState, s.loop = .atHead → s.running = true →
      s.workflow.is_complete = false →
      s.workflow.get_next_tasks = [] → s.active = [] →
      LoopStep s (stuckResult s) ∧
      (stuckResult s).workflow.status = .failed ∧
      (stuckResult s).workflow.error = some stuckMsg ∧
      (stuckResult s).loop = .finished)
    ∧ (∀ s s' : EngState, LoopStep s s' →
        s'.workflow.error = some stuckMsg →
        s.workflow.error = some stuckMsg ∨
          (s.workflow.get_next_tasks = [] ∧ s.active = [] ∧
            s.workflow.is_complete = false))
    ∧ (LoopStep badInit badStuck
       ∧ (∀ s', LoopStep badInit s' → s' = badStuck)
       ∧ badStuck.workflow.status = .failed
       ∧ badStuck.workflow.error = some stuckMsg
       ∧ badStuck.loop = .finished
       ∧ (∀ s'', ¬ LoopStep badStuck s'')) := by
  refine ⟨?_, ?_, ?_, ?_, ?_, ?_, ?_, ?_⟩
  · intro s h1 h2 h3 h4 h5
    exact ⟨LoopStep.stuck s h1 h2 h3 h4 h5,
      (stuckResult_props s h3).1, (stuckResult_props s h3).2.1,
      (stuckResult_props s h3).2.2⟩
  · intro s s' hstep herr
    cases hstep with
    | exit h1 h2 => exact Or.inl (finalize_error_stuck s herr)
    | stuck h1 h2 h3 h4 h5 => exact Or.inr ⟨h4, h5, h3⟩
    | idle h1 h2 h3 h4 h5 => exact Or.inl herr
    | dispatch h1 h2 h3 h4 => exact Or.inl herr
    | finishSuccess j sid content meta hj =>
      rw [finishSuccess_workflow_error] at herr
      exact Or.inl herr
    | finishFailure j msg hj =>
      rw [finishFailure_workflow_error] at herr
      exact Or.inl herr
  · exact LoopStep.stuck badInit rfl rfl (by decide) (by decide) rfl
  · intro s' hstep
    cases hstep with
    | exit h1 h2 =>
      rcases h2 with h2 | h2
      · exact absurd h2 (by decide)
      · exact absurd h2 (by decide)
    | stuck h1 h2 h3 h4 h5 => rfl
    | idle h1 h2 h3 h4 h5 => exact absurd rfl h5
    | dispatch h1 h2 h3 h4 => exact absurd (by decide) h4
    | finishSuccess j sid content meta hj => exact (List.not_mem_nil j hj).elim
    | finishFailure j msg hj => exact (List.not_mem_nil j hj).elim
  · exact (stuckResult_props badInit (by decide)).1
  · exact (stuckResult_props badInit (by decide)).2.1
  · exact (stuckResult_props badInit (by decide)).2.2
  · intro s'' hstep
    cases hstep with
    | exit h1 h2 => exact absurd h1 (by decide)
    | stuck h1 h2 h3 h4 h5 => exact absurd h1 (by decide)
    | idle h1 h2 h3 h4 h5 => exact absurd h1 (by decide)
    | dispatch h1 h2 h3 h4 => exact absurd h1 (by decide)
    | finishSuccess j sid content meta hj => exact (List.not_mem_nil j hj).elim
    | finishFailure j msg hj => exact (List.not_mem_nil j hj).elim

/-- Witness for C2 at a concrete input: the stuck branch fires on
`badInit` and produces the `FAILED` stuck outcome. -/
theorem C2_stuck_detection_witness :
    LoopStep badInit (stuckResult badInit) ∧
    (stuckResult badInit).workflow.status = .failed :=
  let h := C2_stuck_detection.1 badInit rfl rfl (by decide) (by decide) rfl
  ⟨h.1, h.2.1⟩

theorem finishSuccess_loop (s : EngState) (i : Nat) (sid content : String)
    (meta : List (String × String)) :
    (finishSuccessResult s i sid content meta).loop = s.loop := by
  unfold finishSuccessResult
  cases hg : s.workflow.tasks[i]? with
  | none => rfl
  | some tj => simp [hg]

theorem finishFailure_loop (s : EngState) (i : Nat) (msg : String) :
    (finishFailureResult s i msg).loop = s.loop := by
  unfold finishFailureResult
  cases hg : s.workflow.tasks[i]? with
  | none => rfl
  | some tj => simp [hg]

/-- C3: when the loop is at its head and the workflow is complete, the
only loop exit is the post-loop block: if any task is `FAILED` the
workflow becomes `FAILED` with the generic "One or more tasks failed"
error and the `workflow_failed` callback fires; otherwise it becomes
`COMPLETED` and `workflow_complete` fires.  The exit never touches task
state, so a completed sibling of a failed task keeps its result. -/
theorem C3_completion_outcome :
    ∀ s : EngState, s.loop = .atHead → s.workflow.is_complete = true →
      LoopStep s (finalizeResult s)
      ∧ (s.workflow.has_failed_tasks = true →
          (finalizeResult s).workflow.status = .failed ∧
          (finalizeResult s).workflow.error = some tasksFailedMsg ∧
          EngineEvent.workflow_failed ∈ (finalizeResult s).events)
      ∧ (s.workflow.has_failed_tasks = false →
          (finalizeResult s).workflow.status = .completed ∧
          EngineEvent.workflow_complete ∈ (finalizeResult s).events)
      ∧ (finalizeResult s).workflow.tasks = s.workflow.tasks
      ∧ (∀ s', LoopStep s s' → s'.loop = .finished → s' = finalizeResult s) := by
  intro s h1 hc
  refine ⟨LoopStep.exit s h1 (Or.inr hc), ?_, ?_, finalize_workflow_tasks s, ?_⟩
  · intro hf
    unfold finalizeResult
    simp [hc, hf]
  · intro hf
    unfold finalizeResult
    simp [hc, hf]
  · intro s' hstep hfin
    cases hstep with
    | exit h1' h2' => rfl
    | stuck h1' h2' h3' h4' h5' =>
      rw [hc] at h3'
      exact Bool.noConfusion h3'
    | idle h1' h2' h3' h4' h5' =>
      rw [hc] at h3'
      exact Bool.noConfusion h3'
    | dispatch h1' h2' h3' h4' =>
      rw [hc] at h3'
      exact Bool.noConfusion h3'
    | finishSuccess j sid content meta hj =>
      rw [finishSuccess_loop, h1] at hfin
      exact LoopPhase.noConfusion hfin
    | finishFailure j msg hj =>
      rw [finishFailure_loop, h1] at hfin
      exact LoopPhase.noConfusion hfin

/-- Witness for C3 at a concrete input: `exCompleteState` (one failed,
one completed task) exits as `FAILED` with the generic error. -/
theorem C3_completion_outcome_witness :
    (finalizeResult exCompleteState).workflow.status = .failed ∧
    (finalizeResult exCompleteState).workflow.error = some tasksFailedMsg :=
  let h := C3_completion_outcome exCompleteState rfl (by decide)
  ⟨(h.2.1 (by decide)).1, (h.2.1 (by decide)).2.1⟩

/-- C8: `stop()` sets the workflow status to `CANCELLED` and clears the
running flag without touching any task; once stopped, the only loop
transition is the exit of the current iteration (outcomes of already
in-flight executions may still land, the documented benign race); a task
handed to `_execute_task` after stop is returned unmutated by the entry
guard; and any step taken from a stopped state leaves every task that has
no in-flight execution — in particular every `COMPLETED` task and every
never-dispatched `PENDING` task — exactly unchanged.  If the workflow is
incomplete at exit (the claim's scenario: undispatched tasks remain), the
post-loop block preserves the `CANCELLED` status. -/
theorem C8_stop_semantics :
    (∀ s : EngState, (stopEngine s).workflow.status = .cancelled ∧
      (stopEngine s).running = false ∧
      (stopEngine s).workflow.tasks = s.workflow.tasks ∧
      (stopEngine s).execs = s.execs ∧
      (stopEngine s).events = s.events)
    ∧ (∀ s s' : EngState, s.running = false → LoopStep s s' →
        s' = finalizeResult s ∨ (∃ i, i ∈ s.execs ∧ s'.loop = s.loop))
    ∧ (∀ (t : Task) (c : Nat), execTaskGuard false c t = t)
    ∧ (∀ (s s' : EngState) (i : Nat), s.running = false → LoopStep s s' →
        (∀ j ∈ s.execs, j ≠ i) →
        s'.workflow.tasks[i]? = s.workflow.tasks[i]?)
    ∧ (∀ s : EngState, s.workflow.is_complete = false →
        (finalizeResult (stopEngine s)).workflow.status = .cancelled) := by
  refine ⟨?_, ?_, ?_, ?_, ?_⟩
  · intro s
    exact ⟨rfl, rfl, rfl, rfl, rfl⟩
  · intro s s' hr hstep
    cases hstep with
    | exit h1 h2 => exact Or.inl rfl
    | stuck h1 h2 h3 h4 h5 => rw [hr] at h2; exact Bool.noConfusion h2
    | idle h1 h2 h3 h4 h5 => rw [hr] at h2; exact Bool.noConfusion h2
    | dispatch h1 h2 h3 h4 => rw [hr] at h2; exact Bool.noConfusion h2
    | finishSuccess j sid content meta hj =>
      exact Or.inr ⟨j, hj, finishSuccess_loop s j sid content meta⟩
    | finishFailure j msg hj =>
      exact Or.inr ⟨j, hj, finishFailure_loop s j msg⟩
  · intro t c
    rfl
  · intro s s' i hr hstep hout
    cases hstep with
    | exit h1 h2 => exact congrArg (fun l => l[i]?) (finalize_workflow_tasks s)
    | stuck h1 h2 h3 h4 h5 => rw [hr] at h2; exact Bool.noConfusion h2
    | idle h1 h2 h3 h4 h5 => rfl
    | dispatch h1 h2 h3 h4 => rw [hr] at h2; exact Bool.noConfusion h2
    | finishSuccess j sid content meta hj =>
      unfold finishSuccessResult
      cases hg : s.workflow.tasks[j]? with
      | none => rfl
      | some tj =>
        simp only
        exact List.getElem?_set_ne (hout j hj)
    | finishFailure j msg hj =>
      unfold finishFailureResult
      cases hg : s.workflow.tasks[j]? with
      | none => rfl
      | some tj =>
        simp only
        exact List.getElem?_set_ne (hout j hj)
  · intro s hc
    have hc' : (stopEngine s).workflow.is_complete = false := hc
    unfold finalizeResult
    simp [hc']
    rfl

/-- Witness for C8 at a concrete input: stopping `exDispatchState`
cancels the workflow, and the subsequent loop exit leaves both the
completed task `exTaskA` and the never-dispatched pending task `exTaskB`
unchanged. -/
theorem C8_stop_semantics_witness :
    (stopEngine exDispatchState).workflow.status = .cancelled ∧
    (finalizeResult exStopState).workflow.tasks[0]? =
      exStopState.workflow.tasks[0]? ∧
    (finalizeResult exStopState).workflow.tasks[1]? =
      exStopState.workflow.tasks[1]? :=
  ⟨(C8_stop_semantics.1 exDispatchState).1,
   C8_stop_semantics.2.2.2.1 exStopState (finalizeResult exStopState) 0 rfl
     (LoopStep.exit exStopState rfl (Or.inl rfl)) (by decide),
   C8_stop_semantics.2.2.2.1 exStopState (finalizeResult exStopState) 1 rfl
     (LoopStep.exit exStopState rfl (Or.inl rfl)) (by decide)⟩

/-- C6: `execute()` raises exactly when no workflow is bound to the
engine; with a workflow bound it enters the loop, and any internal error
reaching the top-level handler is converted into workflow-level failure
data — status `FAILED`, the message in `workflow.error`, `end_time`
stamped, the `workflow_failed` callback invoked — after which `execute()`
returns the workflow normally with the running flag cleared and task
state untouched by the handler. -/
theorem C6_execute_error_policy :
    (∀ (e : EngineSlot) (c : Nat),
      (∃ err, executeEntry e c = .error err) ↔ e.workflow = none)
    ∧ (∀ (msg : String) (s : EngState),
        (engineFaultHandler msg s).workflow.status = .failed ∧
        (engineFaultHandler msg s).workflow.error = some msg ∧
        (engineFaultHandler msg s).workflow.end_time = some s.clock ∧
        (engineFaultHandler msg s).loop = .finished ∧
        (engineFaultHandler msg s).running = false ∧
        EngineEvent.workflow_failed ∈ (engineFaultHandler msg s).events ∧
        (engineFaultHandler msg s).workflow.tasks = s.workflow.tasks) := by
  constructor
  · intro e c
    cases hw : e.workflow with
    | none =>
      constructor
      · intro _
        rfl
      · intro _
        exact ⟨"No workflow set", by simp [executeEntry, hw]⟩
    | some w =>
      constructor
      · rintro ⟨err, herr⟩
        simp [executeEntry, hw] at herr
      · intro h
        exact Option.noConfusion h
  · intro msg s
    refine ⟨rfl, rfl, rfl, rfl, rfl, ?_, rfl⟩
    simp [engineFaultHandler]

/-- Witness for C6 at concrete inputs: an unbound engine errors, and a
fault during the `badInit` run lands as workflow failure data. -/
theorem C6_execute_error_policy_witness :
    (∃ err, executeEntry { workflow := none } 0 = .error err) ∧
    (engineFaultHandler "boom" badInit).workflow.status = .failed :=
  ⟨(C6_execute_error_policy.1 { workflow := none } 0).mpr rfl,
   (C6_execute_error_policy.2 "boom" badInit).1⟩

theorem buildTasksCreate_error (gen : Nat → String) :
    ∀ (tds : List TaskDef) (i : Nat),
      (∃ e, buildTasksCreate gen tds i = .error e) ↔
        ∃ td ∈ tds, td.agent_type = none ∨
          ∃ s, td.agent_type = some s ∧ AgentType.ofString s = none := by
  intro tds
  induction tds with
  | nil =>
    intro i
    simp [buildTasksCreate]
  | cons td rest ih =>
    intro i
    cases hta : td.agent_type with
    | none =>
      constructor
      · intro _
        exact ⟨td, List.mem_cons_self td rest, Or.inl hta⟩
      · intro _
        exact ⟨("'agent_type'", i), by simp [buildTasksCreate, hta]⟩
    | some s =>
      cases hos : AgentType.ofString s with
      | none =>
        constructor
        · intro _
          exact ⟨td, List.mem_cons_self td rest, Or.inr ⟨s, hta, hos⟩⟩
        · intro _
          exact ⟨(s ++ " is not a valid AgentType", i),
            by simp [buildTasksCreate, hta, hos]⟩
      | some a =>
        constructor
        · rintro ⟨e, he⟩
          cases hrec : buildTasksCreate gen rest (i + 1) with
          | error e' =>
            obtain ⟨td', hmem, hbad⟩ := (ih (i + 1)).mp ⟨e', hrec⟩
            exact ⟨td', List.mem_cons_of_mem td hmem, hbad⟩
          | ok ts =>
            rw [buildTasksCreate] at he
            simp only [hta, hos, hrec] at he
            exact Except.noConfusion he
        · rintro ⟨td', hmem, hbad⟩
          rcases List.mem_cons.mp hmem with rfl | hmem'
          · rcases hbad with h | ⟨s', hs', ho'⟩
            · rw [hta] at h
              exact Option.noConfusion h
            · rw [hta] at hs'
              injection hs' with hss
              subst hss
              rw [hos] at ho'
              exact Option.noConfusion ho'
          · obtain ⟨e, he⟩ := (ih (i + 1)).mpr ⟨td', hmem', hbad⟩
            refine ⟨e, ?_⟩
            rw [buildTasksCreate]
            simp only [hta, hos, he]
theorem buildTasksParse_error :
    ∀ (tds : List TaskDef) (i : Nat),
      (∃ e, buildTasksParse tds i = .error e) ↔
        ∃ td ∈ tds, truthyStr td.id = false ∨
          truthyStr td.agent_type = false ∨
          ∃ s, td.agent_type = some s ∧ AgentType.ofString s = none := by
  intro tds
  induction tds with
  | nil =>
    intro i
    simp [buildTasksParse]
  | cons td rest ih =>
    intro i
    by_cases hid : truthyStr td.id
    · by_cases hat : truthyStr td.agent_type
      · have hta : ∃ s, td.agent_type = some s := by
          cases hta' : td.agent_type with
          | none =>
            rw [hta'] at hat
            exact absurd hat (by decide)
          | some s => exact ⟨s, rfl⟩
        obtain ⟨s, hta⟩ := hta
        cases hos : AgentType.ofString (td.agent_type.getD "") with
        | none =>
          constructor
          · intro _
            refine ⟨td, List.mem_cons_self td rest, Or.inr (Or.inr ⟨s, hta, ?_⟩)⟩
            rw [hta] at hos
            exact hos
          · intro _
            refine ⟨(td.agent_type.getD "" ++ " is not a valid AgentType", i), ?_⟩
            rw [buildTasksParse, if_pos hid, if_pos hat, hos]
        | some a =>
          constructor
          · rintro ⟨e, he⟩
            cases hrec : buildTasksParse rest (i + 1) with
            | error e' =>
              obtain ⟨td', hmem, hbad⟩ := (ih (i + 1)).mp ⟨e', hrec⟩
              exact ⟨td', List.mem_cons_of_mem td hmem, hbad⟩
            | ok ts =>
              rw [buildTasksParse, if_pos hid, if_pos hat] at he
              simp only [hos, hrec] at he
              exact Except.noConfusion he
          · rintro ⟨td', hmem, hbad⟩
            rcases List.mem_cons.mp hmem with rfl | hmem'
            · rcases hbad with h | h | ⟨s', hs', ho'⟩
              · rw [hid] at h
                exact Bool.noConfusion h
              · rw [hat] at h
                exact Bool.noConfusion h
              · rw [hta] at hs'
                injection hs' with hss
                subst hss
                rw [hta] at hos
                have hos' : AgentType.ofString s = some a := hos
                rw [ho'] at hos'
                exact Option.noConfusion hos'
            · obtain ⟨e, he⟩ := (ih (i + 1)).mpr ⟨td', hmem', hbad⟩
              refine ⟨e, ?_⟩
              rw [buildTasksParse, if_pos hid, if_pos hat]
              simp only [hos, he]
      · constructor
        · intro _
          exact ⟨td, List.mem_cons_self td rest,
            Or.inr (Or.inl (Bool.of_not_eq_true hat))⟩
        · intro _
          refine ⟨("Task agent_type is required", i), ?_⟩
          rw [buildTasksParse, if_pos hid, if_neg hat]
    · constructor
      · intro _
        exact ⟨td, List.mem_cons_self td rest,
          Or.inl (Bool.of_not_eq_true hid)⟩
      · intro _
        refine ⟨("Task ID is required", i), ?_⟩
        rw [buildTasksParse, if_neg hid]

/-- Counterexample to C7 as stated: `_create_workflow` accepts a
definition with no workflow id (generating one), and on a definition with
no name but one valid task it raises only after that task's `Task` object
has been built (the error value records one constructed task). -/
theorem C7_validation_counterexample :
    (∃ w, createWorkflow gen0 defNoId = .ok w) ∧
    createWorkflow gen0 defNoName = .error ("'name'", 1) := by
  constructor
  · exact ⟨_, rfl⟩
  · rfl

/-- C7 (amended): the agent's `_create_workflow` generates fresh ids for
a missing workflow id or task id rather than rejecting; it fails exactly
when the workflow name is absent or some task's agent type is absent or
unknown, and on failure nothing is stored (though `Task` objects may
already have been built).  The endpoint-level `parse_workflow_definition`
rejects exactly a missing/empty workflow id or name, or a task with a
missing/empty id or a missing/empty/unknown agent type. -/
theorem C7_validation_amended :
    (∀ (gen : Nat → String) (d : WorkflowDef),
      (∃ e, createWorkflow gen d = .error e) ↔
        (d.name = none ∨ ∃ td ∈ d.tasks.getD [],
          td.agent_type = none ∨
          ∃ s, td.agent_type = some s ∧ AgentType.ofString s = none))
    ∧ (∀ (gen : Nat → String) (d : WorkflowDef)
        (ws : List (String × Workflow)) (e : String × Nat),
        createWorkflow gen d = .error e → createWorkflowStore gen d ws = ws)
    ∧ (∀ d : WorkflowDef,
        (∃ e, parseWorkflowDefinition d = .error e) ↔
          (truthyStr d.id = false ∨ truthyStr d.name = false ∨
            ∃ td ∈ d.tasks.getD [],
              truthyStr td.id = false ∨ truthyStr td.agent_type = false ∨
              ∃ s, td.agent_type = some s ∧ AgentType.ofString s = none)) := by
  refine ⟨?_, ?_, ?_⟩
  · intro gen d
    unfold createWorkflow
    cases hb : buildTasksCreate gen (d.tasks.getD []) 0 with
    | error e =>
      constructor
      · intro _
        exact Or.inr ((buildTasksCreate_error gen (d.tasks.getD []) 0).mp ⟨e, hb⟩)
      · intro _
        exact ⟨e, rfl⟩
    | ok ts =>
      cases hn : d.name with
      | none =>
        constructor
        · intro _
          exact Or.inl rfl
        · intro _
          exact ⟨("'name'", ts.length), rfl⟩
      | some nm =>
        constructor
        · rintro ⟨e, he⟩
          exact Except.noConfusion he
        · rintro (h | hbad)
          · exact Option.noConfusion h
          · obtain ⟨e, he⟩ :=
              (buildTasksCreate_error gen (d.tasks.getD []) 0).mpr hbad
            rw [he] at hb
            exact Except.noConfusion hb
  · intro gen d ws e he
    unfold createWorkflowStore
    rw [he]
  · intro d
    unfold parseWorkflowDefinition
    by_cases hid : truthyStr d.id
    · by_cases hn : truthyStr d.name
      · rw [if_pos hid, if_pos hn]
        cases hb : buildTasksParse (d.tasks.getD []) 0 with
        | error e =>
          constructor
          · intro _
            exact Or.inr (Or.inr
              ((buildTasksParse_error (d.tasks.getD []) 0).mp ⟨e, hb⟩))
          · intro _
            exact ⟨e, rfl⟩
        | ok ts =>
          constructor
          · rintro ⟨e, he⟩
            exact Except.noConfusion he
          · rintro (h | h | hbad)
            · rw [hid] at h
              exact Bool.noConfusion h
            · rw [hn] at h
              exact Bool.noConfusion h
            · obtain ⟨e, he⟩ :=
                (buildTasksParse_error (d.tasks.getD []) 0).mpr hbad
              rw [he] at hb
              exact Except.noConfusion hb
      · rw [if_pos hid, if_neg hn]
        constructor
        · intro _
          exact Or.inr (Or.inl (Bool.of_not_eq_true hn))
        · intro _
          exact ⟨("Workflow name is required", 0), rfl⟩
    · rw [if_neg hid]
      constructor
      · intro _
        exact Or.inl (Bool.of_not_eq_true hid)
      · intro _
        exact ⟨("Workflow ID is required", 0), rfl⟩

/-- Witness for C7 (amended) at a concrete input: a definition whose
single task has an unknown agent type fails the create and leaves the
store unchanged. -/
theorem C7_validation_amended_witness :
    (∃ e, createWorkflow gen0
      { id := some "x", name := some "w", description := none,
        metadata := none,
        tasks := some [{ tdValid with agent_type := some "nope" }] } = .error e) ∧
    createWorkflowStore gen0
      { id := some "x", name := some "w", description := none,
        metadata := none,
        tasks := some [{ tdValid with agent_type := some "nope" }] } [] = [] :=
  ⟨(C7_validation_amended.1 gen0 _).mpr
      (Or.inr ⟨{ tdValid with agent_type := some "nope" },
        List.mem_cons_self _ _, Or.inr ⟨"nope", rfl, rfl⟩⟩),
   C7_validation_amended.2.1 gen0 _ [] ("nope is not a valid AgentType", 0) rfl⟩

theorem get_set_ne (hh : Heap) (r rt : Nat) (v : Task) (hne : r ≠ rt) :
    (hh.set r v).get rt = hh.get rt := by
  unfold Heap.set Heap.get
  simp only
  induction hh.entries with
  | nil => rfl
  | cons p rest ih =>
    by_cases hp : p.1 = r
    · have hpr : (p.1 == r) = true := by simp [hp]
      have hnr : ((r, v).1 == rt) = false := by simp [hne]
      have hnr' : (p.1 == rt) = false := by simp [hp, hne]
      simp only [List.map_cons, hpr, if_true]
      rw [List.find?_cons_of_neg _ (by simp [hne]),
        List.find?_cons_of_neg _ (by simp [hp, hne])]
      exact ih
    · have hpr : (p.1 == r) = false := by simp [hp]
      simp only [List.map_cons, hpr, if_false]
      by_cases hq : p.1 = rt
      · rw [List.find?_cons_of_pos _ (by simp [hq]),
          List.find?_cons_of_pos _ (by simp [hq])]
        simp
      · rw [List.find?_cons_of_neg _ (by simp [hq]),
          List.find?_cons_of_neg _ (by simp [hq])]
        exact ih

theorem wfh_alloc (h : Heap) (t : Task) (hw : h.wfh) : (h.alloc t).1.wfh := by
  intro p hp
  rcases List.mem_append.mp hp with hp | hp
  · exact Nat.lt_succ_of_lt (hw p hp)
  · rcases List.mem_singleton.mp hp with rfl
    exact Nat.lt_succ_self _

theorem get_alloc_lt (h : Heap) (t : Task) (r : Nat) (hr : r < h.next) :
    (h.alloc t).1.get r = h.get r := by
  unfold Heap.get Heap.alloc
  simp only
  rw [List.find?_append]
  have hne : (h.next == r) = false := by
    simp
    omega
  cases hf : h.entries.find? (fun p => p.1 == r) with
  | some y => simp [hf]
  | none => simp [hf, List.find?, hne]

theorem copyTasks_spec :
    ∀ (rs : List Nat) (h : Heap), h.wfh →
      (copyTasks h rs).1.wfh
      ∧ h.next ≤ (copyTasks h rs).1.next
      ∧ (∀ r, r < h.next → (copyTasks h rs).1.get r = h.get r)
      ∧ (∀ r ∈ (copyTasks h rs).2,
          h.next ≤ r ∧ r < (copyTasks h rs).1.next) := by
  intro rs
  induction rs with
  | nil =>
    intro h hw
    exact ⟨hw, le_refl _, fun r _ => rfl, by simp [copyTasks]⟩
  | cons r rs ih =>
    intro h hw
    cases hg : h.get r with
    | none =>
      simp only [copyTasks, hg]
      exact ih h hw
    | some t =>
      have hw1 := wfh_alloc h t hw
      obtain ⟨ih1, ih2, ih3, ih4⟩ := ih (h.alloc t).1 hw1
      have hnext1 : (h.alloc t).1.next = h.next + 1 := rfl
      simp only [copyTasks, hg]
      refine ⟨ih1, ?_, ?_, ?_⟩
      · rw [hnext1] at ih2
        omega
      · intro r' hr'
        rw [ih3 r' (by rw [hnext1]; omega)]
        exact get_alloc_lt h t r' hr'
      · intro r' hr'
        rcases List.mem_cons.mp hr' with rfl | hr''
        · have : (h.alloc t).2 = h.next := rfl
          rw [this]
          rw [hnext1] at ih2
          exact ⟨le_refl _, by omega⟩
        · obtain ⟨hle, hlt⟩ := ih4 r' hr''
          rw [hnext1] at hle
          exact ⟨by omega, hlt⟩

/-- C9: writes through one reference never affect another reference;
`_execute_workflow` leaves the stored template map untouched, preserves
every pre-existing heap object (so the template's `Task` objects — still
`PENDING` with unset results — are unchanged by an execution), registers
an execution instance whose task references are all freshly allocated and
disjoint from the template's; and two successive executions of the same
workflow id produce instances with disjoint task references, so mutating
one run's task objects cannot affect the other's. -/
theorem C9_deepcopy_independence :
    (∀ (hh : Heap) (r rt : Nat) (v : Task), r ≠ rt →
      (hh.set r v).get rt = hh.get rt)
    ∧ (∀ (st st' : OrchState) (wid : String) (w : WorkflowObj),
        st.heap.wfh →
        lookupStr st.workflows wid = some w →
        (∀ r ∈ w.taskRefs, r < st.heap.next) →
        executeWorkflowOp st wid = .ok st' →
        st'.workflows = st.workflows
        ∧ st'.heap.wfh
        ∧ st.heap.next ≤ st'.heap.next
        ∧ (∀ r, r < st.heap.next → st'.heap.get r = st.heap.get r)
        ∧ lookupStr st'.engines wid = some (deepcopyWorkflow st.heap w).2
        ∧ (∀ r ∈ (deepcopyWorkflow st.heap w).2.taskRefs,
            st.heap.next ≤ r ∧ r < st'.heap.next)
        ∧ (∀ r ∈ (deepcopyWorkflow st.heap w).2.taskRefs, r ∉ w.taskRefs))
    ∧ (∀ (st st' st'' : OrchState) (wid : String) (w w2 : WorkflowObj),
        st.heap.wfh →
        lookupStr st.workflows wid = some w →
        (∀ r ∈ w.taskRefs, r < st.heap.next) →
        executeWorkflowOp st wid = .ok st' →
        lookupStr st'.workflows wid = some w2 →
        (∀ r ∈ w2.taskRefs, r < st'.heap.next) →
        executeWorkflowOp st' wid = .ok st'' →
        ∀ r1 ∈ (deepcopyWorkflow st.heap w).2.taskRefs,
          ∀ r2 ∈ (deepcopyWorkflow st'.heap w2).2.taskRefs, r1 ≠ r2) := by
  have hmain : ∀ (st st' : OrchState) (wid : String) (w : WorkflowObj),
      st.heap.wfh →
      lookupStr st.workflows wid = some w →
      (∀ r ∈ w.taskRefs, r < st.heap.next) →
      executeWorkflowOp st wid = .ok st' →
      st'.workflows = st.workflows
      ∧ st'.heap.wfh
      ∧ st.heap.next ≤ st'.heap.next
      ∧ (∀ r, r < st.heap.next → st'.heap.get r = st.heap.get r)
      ∧ lookupStr st'.engines wid = some (deepcopyWorkflow st.heap w).2
      ∧ (∀ r ∈ (deepcopyWorkflow st.heap w).2.taskRefs,
          st.heap.next ≤ r ∧ r < st'.heap.next)
      ∧ (∀ r ∈ (deepcopyWorkflow st.heap w).2.taskRefs, r ∉ w.taskRefs) := by
    intro st st' wid w hwf hlook hrefs hop
    unfold executeWorkflowOp at hop
    rw [hlook] at hop
    simp only at hop
    obtain ⟨hc1, hc2, hc3, hc4⟩ := copyTasks_spec w.taskRefs st.heap hwf
    have hst' : st' = { workflows := st.workflows, engines := (wid, (deepcopyWorkflow st.heap w).2) :: st.engines, heap := (deepcopyWorkflow st.heap w).1 } := by
      injection hop with hop'
      exact hop'.symm
    subst hst'
    have hheap : (deepcopyWorkflow st.heap w).1 = (copyTasks st.heap w.taskRefs).1 := rfl
    have hrefs' : (deepcopyWorkflow st.heap w).2.taskRefs =
        (copyTasks st.heap w.taskRefs).2 := rfl
    refine ⟨rfl, ?_, ?_, ?_, ?_, ?_, ?_⟩
    · rw [hheap]
      exact hc1
    · rw [hheap]
      exact hc2
    · intro r hr
      rw [hheap]
      exact hc3 r hr
    · unfold lookupStr
      simp [List.find?]
    · intro r hr
      rw [hrefs'] at hr
      rw [hheap]
      exact hc4 r hr
    · intro r hr hrw
      rw [hrefs'] at hr
      have := (hc4 r hr).1
      have := hrefs r hrw
      omega
  refine ⟨get_set_ne, hmain, ?_⟩
  intro st st' st'' wid w w2 hwf hlook hrefs hop hlook2 hrefs2 hop2
  obtain ⟨-, -, -, -, -, h1refs, -⟩ := hmain st st' wid w hwf hlook hrefs hop
  obtain ⟨-, hwf', -, -, -, -, -⟩ := hmain st st' wid w hwf hlook hrefs hop
  obtain ⟨-, -, -, -, -, h2refs, -⟩ :=
    hmain st' st'' wid w2 hwf' hlook2 hrefs2 hop2
  intro r1 hr1 r2 hr2
  have hb1 := (h1refs r1 hr1).2
  have hb2 := (h2refs r2 hr2).1
  omega

/-- Witness for C9 at a concrete input: executing the one-template
orchestrator state allocates reference 1 for the copy, leaving the
template's object at reference 0 unchanged and non-aliased. -/
theorem C9_deepcopy_independence_witness :
    (exHeap.set 1 exTaskA).get 0 = exHeap.get 0 ∧
    (∀ st', executeWorkflowOp exOrchState "w" = .ok st' →
      st'.workflows = exOrchState.workflows) := by
  constructor
  · exact C9_deepcopy_independence.1 exHeap 1 0 exTaskA (by decide)
  · intro st' hop
    refine (C9_deepcopy_independence.2.1 exOrchState st' "w" exObjWf
      ?_ rfl (by decide) hop).1
    intro p hp
    simp only [exOrchState, exHeap] at hp
    rcases List.mem_singleton.mp hp with rfl
    decide

end Orch
